import Mathlib

/-!
Shallow embedding of the RefundAssistant decision engine
(`src/app/engine.py`, `src/app/schemas.py`, `src/app/nlp.py`) and its
policy-store operations (`src/main.py`).

Python floats are modelled as exact rationals (`ℚ`); Python's `round(x, 2)`
and the percent/currency renderings inside explanation strings are modelled
with exact round-half-even on rationals.  HTTP status 404 is modelled as
`PolicyError.NotFound` and status 400 as `PolicyError.InvalidArgument`,
following the spec's error taxonomy.
-/

set_option maxRecDepth 4000

namespace RefundAssistant

/-- Round-half-even of a rational to an integer, the tie-breaking rule of
Python's `round` and of `format` on floats (modulo the float/rational
abstraction used throughout this development). -/
def round_half_even (q : ℚ) : ℤ :=
  let f := Int.floor q
  let r := q - f
  if r < 1/2 then f
  else if 1/2 < r then f + 1
  else if f % 2 = 0 then f else f + 1

/-- Python's `round(q, 2)`: round to two decimal places, ties to even. -/
def py_round2 (q : ℚ) : ℚ :=
  ((round_half_even (q * 100) : ℚ)) / 100

/-- Rendering of Python's percent format `f"...:.0%"` (no decimals). -/
def fmtPct0 (q : ℚ) : String :=
  toString (round_half_even (q * 100)) ++ "%"

/-- Rendering of Python's percent format `f"...:.1%"` (one decimal). -/
def fmtPct1 (q : ℚ) : String :=
  let n := round_half_even (q * 1000)
  (if n < 0 then "-" else "") ++
    toString (n.natAbs / 10) ++ "." ++ toString (n.natAbs % 10) ++ "%"

/-- Rendering of Python's fixed-point format `f"...:.2f"`. -/
def fmt2f (q : ℚ) : String :=
  let n := round_half_even (q * 100)
  (if n < 0 then "-" else "") ++
    toString (n.natAbs / 100) ++ "." ++
    (if n.natAbs % 100 < 10 then "0" else "") ++ toString (n.natAbs % 100)

/-- `ComplaintType` enumeration from `src/app/schemas.py`. -/
inductive ComplaintType where
  | LATE_DELIVERY
  | WRONG_ORDER
  | MISSING_ITEMS
  | QUALITY_ISSUE
  | DAMAGED_FOOD
  | NEVER_ARRIVED
  deriving DecidableEq, Repr

/-- `RefundAction` enumeration from `src/app/schemas.py`. -/
inductive RefundAction where
  | REFUND
  | PARTIAL
  | REJECT
  | MANUAL_REVIEW
  deriving DecidableEq, Repr

/-- `CaseData` from `src/app/schemas.py` (the fields the engine reads;
`case_id`, `is_demo` and `complaint_text` do not enter scoring — the
optional text features derived from `complaint_text` are passed to
`evaluate_case` separately, exactly as in `src/main.py`). -/
structure CaseData where
  order_value : ℚ
  delivery_delay_min : ℤ
  restaurant_error_rate : ℚ
  customer_refund_rate : ℚ
  complaint_type : ComplaintType
  photo_provided : Bool
  deriving DecidableEq, Repr

/-- The text-feature dictionary produced by `src/app/nlp.py`
(`TextFeaturesResponse` shape in `src/app/schemas.py`). -/
structure TextFeatures where
  food_quality_issue : Bool
  missing_item : Bool
  wrong_item : Bool
  temperature_problem : Bool
  packaging_problem : Bool
  delivery_spill : Bool
  vague_complaint : Bool
  customer_aggression : ℚ
  evidence_strength : ℚ
  confidence : ℚ
  deriving DecidableEq, Repr

/-- `DecisionReason` from `src/app/schemas.py`. -/
structure DecisionReason where
  factor : String
  explanation : String
  impact : ℚ
  deriving DecidableEq, Repr

/-- `RefundSuggestion` from `src/app/schemas.py`. -/
structure RefundSuggestion where
  action : RefundAction
  confidence : ℚ
  score : ℚ
  reasons : List DecisionReason
  deriving DecidableEq, Repr

/-- `_get_fallback_features` from `src/app/nlp.py`: the neutral bundle
returned when the LLM provider fails or is unconfigured. -/
def get_fallback_features : TextFeatures :=
  { food_quality_issue := false
    missing_item := false
    wrong_item := false
    temperature_problem := false
    packaging_problem := false
    delivery_spill := false
    vague_complaint := false
    customer_aggression := 0
    evidence_strength := 0
    confidence := 0 }

/-- Score thresholds of `RefundDecisionEngine` (`src/app/engine.py`). -/
def REFUND_THRESHOLD : ℚ := 70

/-- `PARTIAL_THRESHOLD` of `RefundDecisionEngine`. -/
def PARTIAL_THRESHOLD : ℚ := 40

/-- `MANUAL_REVIEW_THRESHOLD_HIGH` of `RefundDecisionEngine`. -/
def MANUAL_REVIEW_THRESHOLD_HIGH : ℚ := 65

/-- `MANUAL_REVIEW_THRESHOLD_LOW` of `RefundDecisionEngine`. -/
def MANUAL_REVIEW_THRESHOLD_LOW : ℚ := 45

/-- `_evaluate_complaint_severity` from `src/app/engine.py`.  The Python
dictionary `.get(..., 10)` / `.get(..., "Unknown complaint")` defaults are
unreachable because the enumeration is closed and fully mapped. -/
def evaluate_complaint_severity (case : CaseData) : ℚ × DecisionReason :=
  let score : ℚ :=
    match case.complaint_type with
    | ComplaintType.NEVER_ARRIVED => 35
    | ComplaintType.DAMAGED_FOOD => 25
    | ComplaintType.WRONG_ORDER => 20
    | ComplaintType.MISSING_ITEMS => 18
    | ComplaintType.QUALITY_ISSUE => 15
    | ComplaintType.LATE_DELIVERY => 10
  let expl : String :=
    match case.complaint_type with
    | ComplaintType.NEVER_ARRIVED => "Order never arrived - critical issue"
    | ComplaintType.DAMAGED_FOOD => "Food damaged - health and safety concern"
    | ComplaintType.WRONG_ORDER => "Wrong order delivered - clear mistake"
    | ComplaintType.MISSING_ITEMS => "Items missing from order"
    | ComplaintType.QUALITY_ISSUE => "Quality concern reported"
    | ComplaintType.LATE_DELIVERY => "Delivery was late"
  (score, { factor := "Complaint Severity", explanation := expl, impact := score })

/-- `_evaluate_delivery_delay` from `src/app/engine.py`. -/
def evaluate_delivery_delay (case : CaseData) : ℚ × DecisionReason :=
  let delay := case.delivery_delay_min
  let score : ℚ := if delay ≥ 60 then 20 else if delay ≥ 30 then 12 else if delay ≥ 15 then 5 else 0
  let expl : String :=
    if delay ≥ 60 then "Severe delay (" ++ toString delay ++ " min) - highly unacceptable"
    else if delay ≥ 30 then "Significant delay (" ++ toString delay ++ " min) - customer inconvenienced"
    else if delay ≥ 15 then "Moderate delay (" ++ toString delay ++ " min) - minor inconvenience"
    else "Minimal delay (" ++ toString delay ++ " min) - within acceptable range"
  (score, { factor := "Delivery Delay", explanation := expl, impact := score })

/-- `_evaluate_restaurant_error_rate` from `src/app/engine.py`. -/
def evaluate_restaurant_error_rate (case : CaseData) : ℚ × DecisionReason :=
  let rate := case.restaurant_error_rate
  let score : ℚ := if rate ≥ 0.3 then 15 else if rate ≥ 0.15 then 8 else if rate ≥ 0.05 then 3 else 0
  let expl : String :=
    if rate ≥ 0.3 then "High restaurant error rate (" ++ fmtPct0 rate ++ ") - pattern of issues"
    else if rate ≥ 0.15 then "Moderate restaurant error rate (" ++ fmtPct0 rate ++ ")"
    else if rate ≥ 0.05 then "Low restaurant error rate (" ++ fmtPct0 rate ++ ")"
    else "Excellent restaurant record (" ++ fmtPct0 rate ++ ")"
  (score, { factor := "Restaurant Reliability", explanation := expl, impact := score })

/-- `_evaluate_customer_history` from `src/app/engine.py`. -/
def evaluate_customer_history (case : CaseData) : ℚ × DecisionReason :=
  let rate := case.customer_refund_rate
  let score : ℚ := if rate ≥ 0.4 then -15 else if rate ≥ 0.2 then -8 else if rate ≥ 0.1 then -3 else 5
  let expl : String :=
    if rate ≥ 0.4 then "High customer refund rate (" ++ fmtPct0 rate ++ ") - possible abuse pattern"
    else if rate ≥ 0.2 then "Elevated customer refund rate (" ++ fmtPct0 rate ++ ") - requires scrutiny"
    else if rate ≥ 0.1 then "Moderate customer refund rate (" ++ fmtPct0 rate ++ ")"
    else "Excellent customer history (" ++ fmtPct0 rate ++ ") - trustworthy"
  (score, { factor := "Customer History", explanation := expl, impact := score })

/-- `_evaluate_evidence` from `src/app/engine.py`. -/
def evaluate_evidence (case : CaseData) : ℚ × DecisionReason :=
  let score : ℚ := if case.photo_provided then 10 else -5
  let expl : String :=
    if case.photo_provided then "Photo evidence provided - claim substantiated"
    else "No photo evidence - claim unverified"
  (score, { factor := "Evidence Quality", explanation := expl, impact := score })

/-- `_evaluate_order_value` from `src/app/engine.py`. -/
def evaluate_order_value (case : CaseData) : ℚ × DecisionReason :=
  let value := case.order_value
  let score : ℚ := if value ≥ 100 then 10 else if value ≥ 50 then 5 else if value ≥ 20 then 2 else 0
  let expl : String :=
    if value ≥ 100 then "High-value order ($" ++ fmt2f value ++ ") - important customer"
    else if value ≥ 50 then "Medium-value order ($" ++ fmt2f value ++ ")"
    else if value ≥ 20 then "Standard order value ($" ++ fmt2f value ++ ")"
    else "Low-value order ($" ++ fmt2f value ++ ")"
  (score, { factor := "Order Value", explanation := expl, impact := score })

/-- `_evaluate_text_features` from `src/app/engine.py`: eight independent
conditional contributions, accumulated in source order. -/
def evaluate_text_features (f : TextFeatures) : ℚ × List DecisionReason :=
  let p1 : ℚ × List DecisionReason :=
    if f.temperature_problem then
      (8, [{ factor := "TEXT_SIGNAL_Temperature"
             explanation := "Complaint mentions temperature issues - food quality concern"
             impact := 8 }])
    else (0, [])
  let p2 : ℚ × List DecisionReason :=
    if f.missing_item || f.wrong_item then
      (12, [{ factor := "TEXT_SIGNAL_ItemIssue"
              explanation := "Complaint clearly describes " ++
                (if f.missing_item then "missing" else "wrong") ++
                " item - strong validity"
              impact := 12 }])
    else (0, [])
  let p3 : ℚ × List DecisionReason :=
    if f.delivery_spill then
      (10, [{ factor := "TEXT_SIGNAL_DeliverySpill"
              explanation := "Delivery spill mentioned - courier fault, not restaurant"
              impact := 10 }])
    else (0, [])
  let p4 : ℚ × List DecisionReason :=
    if f.food_quality_issue then
      (7, [{ factor := "TEXT_SIGNAL_FoodQuality"
             explanation := "Food quality issue described in complaint"
             impact := 7 }])
    else (0, [])
  let p5 : ℚ × List DecisionReason :=
    if f.packaging_problem then
      (6, [{ factor := "TEXT_SIGNAL_Packaging"
             explanation := "Packaging problem mentioned - preparation issue"
             impact := 6 }])
    else (0, [])
  let p6 : ℚ × List DecisionReason :=
    if f.vague_complaint then
      (-8, [{ factor := "TEXT_SIGNAL_VagueComplaint"
              explanation := "Complaint is vague or lacks specifics - reduces credibility"
              impact := -8 }])
    else (0, [])
  let p7 : ℚ × List DecisionReason :=
    if f.customer_aggression > 0.7 then
      (-5, [{ factor := "TEXT_SIGNAL_Aggression"
              explanation := "High aggression level (" ++ fmtPct1 f.customer_aggression ++
                ") - may indicate unreasonable expectations"
              impact := -5 }])
    else (0, [])
  let p8 : ℚ × List DecisionReason :=
    if f.evidence_strength > 0.6 then
      (8, [{ factor := "TEXT_SIGNAL_EvidenceStrength"
             explanation := "Strong evidence in complaint text (" ++ fmtPct1 f.evidence_strength ++
               ") - detailed description"
             impact := 8 }])
    else (0, [])
  (0 + p1.1 + p2.1 + p3.1 + p4.1 + p5.1 + p6.1 + p7.1 + p8.1,
   p1.2 ++ p2.2 ++ p3.2 ++ p4.2 ++ p5.2 ++ p6.2 ++ p7.2 ++ p8.2)

/-- `_score_to_action` from `src/app/engine.py`.  The normalization
`max(0, min(100, (score + 25) / 1.4))` is exact rational arithmetic here;
the unused `case` parameter is kept from the source signature. -/
def score_to_action (score : ℚ) (case : CaseData) : RefundAction × ℚ :=
  let _ := case
  let normalized_score : ℚ := max 0 (min 100 ((score + 25) / 1.4))
  if score ≥ REFUND_THRESHOLD then
    (RefundAction.REFUND, min 0.95 (normalized_score / 100))
  else if score ≥ MANUAL_REVIEW_THRESHOLD_HIGH then
    (RefundAction.MANUAL_REVIEW, 0.6)
  else if score ≥ PARTIAL_THRESHOLD then
    (RefundAction.PARTIAL, min 0.85 (normalized_score / 100))
  else if score ≥ MANUAL_REVIEW_THRESHOLD_LOW then
    (RefundAction.MANUAL_REVIEW, 0.6)
  else
    (RefundAction.REJECT, min 0.90 ((100 - normalized_score) / 100))

/-- `evaluate_case` from `src/app/engine.py`: the six unconditional rules in
source order, then the text-feature group when a bundle is present with
`confidence > 0` (a present bundle is a non-empty, hence truthy, Python
dictionary), then score-to-action conversion and two-decimal rounding. -/
def evaluate_case (case : CaseData) (text_features : Option TextFeatures) : RefundSuggestion :=
  let base_score : ℚ :=
    0 + (evaluate_complaint_severity case).1 + (evaluate_delivery_delay case).1 +
      (evaluate_restaurant_error_rate case).1 + (evaluate_customer_history case).1 +
      (evaluate_evidence case).1 + (evaluate_order_value case).1
  let base_reasons : List DecisionReason :=
    [(evaluate_complaint_severity case).2, (evaluate_delivery_delay case).2,
     (evaluate_restaurant_error_rate case).2, (evaluate_customer_history case).2,
     (evaluate_evidence case).2, (evaluate_order_value case).2]
  let score : ℚ :=
    match text_features with
    | some tf => if tf.confidence > 0 then base_score + (evaluate_text_features tf).1 else base_score
    | none => base_score
  let reasons : List DecisionReason :=
    match text_features with
    | some tf => if tf.confidence > 0 then base_reasons ++ (evaluate_text_features tf).2 else base_reasons
    | none => base_reasons
  { action := (score_to_action score case).1
    confidence := (score_to_action score case).2
    score := py_round2 score
    reasons := reasons }

/-- One `{enabled, weight, description}` entry of the `policy_rules`
dictionary in `src/main.py`. -/
structure RuleEntry where
  enabled : Bool
  weight : ℚ
  description : String
  deriving DecidableEq, Repr

/-- The policy store: the `policy_rules` dictionary of `src/main.py`,
modelled as an association list of `rule_code ↦ entry` in insertion order. -/
abbrev PolicyStore : Type := List (String × RuleEntry)

/-- Typed failures of the policy operations: HTTP 404 (`NotFound`) and
HTTP 400 (`InvalidArgument`) in `src/main.py`. -/
inductive PolicyError where
  | NotFound
  | InvalidArgument
  deriving DecidableEq, Repr

/-- The initial contents of `policy_rules` in `src/main.py`: all eight rules
enabled with weight 1.0. -/
def initial_policy_rules : PolicyStore :=
  [("COMPLAINT_SEVERITY", { enabled := true, weight := 1.0, description := "Severity of complaint type" }),
   ("HIGH_DELAY", { enabled := true, weight := 1.0, description := "High delivery delay penalty" }),
   ("RESTAURANT_ERROR", { enabled := true, weight := 1.0, description := "Restaurant reliability score" }),
   ("CUSTOMER_RISK", { enabled := true, weight := 1.0, description := "Customer refund history risk" }),
   ("PHOTO_EVIDENCE", { enabled := true, weight := 1.0, description := "Photo evidence bonus" }),
   ("ORDER_VALUE", { enabled := true, weight := 1.0, description := "Order monetary value impact" }),
   ("VAGUE_COMPLAINT", { enabled := true, weight := 1.0, description := "Vague complaint penalty" }),
   ("TEXT_SIGNALS", { enabled := true, weight := 1.0, description := "LLM text intelligence signals" })]

/-- Dictionary lookup `policy_rules[rule_code]` (also the membership test
`rule_code in policy_rules`). -/
def lookupRule : PolicyStore → String → Option RuleEntry
  | [], _ => none
  | (k, e) :: rest, c => if k = c then some e else lookupRule rest c

/-- In-place mutation of one dictionary entry: rewrite the entry stored
under `code` with `f`, keeping every other key untouched (dictionary keys
are unique and updates never change insertion order). -/
def updateRule (ps : PolicyStore) (code : String) (f : RuleEntry → RuleEntry) : PolicyStore :=
  ps.map (fun kv => if kv.1 = code then (kv.1, f kv.2) else kv)

/-- `toggle_policy_rule` from `src/main.py`: 404 when the code is unknown,
otherwise flip the `enabled` flag in place.  The returned pair is
(response, policy store after the call). -/
def toggle_policy_rule (ps : PolicyStore) (rule_code : String) :
    Except PolicyError Unit × PolicyStore :=
  match lookupRule ps rule_code with
  | none => (Except.error PolicyError.NotFound, ps)
  | some _ =>
    (Except.ok (), updateRule ps rule_code (fun e => { e with enabled := !e.enabled }))

/-- `update_policy_weight` from `src/main.py`: 404 when the code is unknown,
400 when the weight is outside [0, 2], otherwise replace the weight in
place.  The returned pair is (response, policy store after the call). -/
def update_policy_weight (ps : PolicyStore) (rule_code : String) (weight : ℚ) :
    Except PolicyError Unit × PolicyStore :=
  match lookupRule ps rule_code with
  | none => (Except.error PolicyError.NotFound, ps)
  | some _ =>
    if weight < 0 ∨ weight > 2 then (Except.error PolicyError.InvalidArgument, ps)
    else (Except.ok (), updateRule ps rule_code (fun e => { e with weight := weight }))

/-- Python's `str.lower()`, modelled as per-character lowercasing of the
string's character list. -/
def str_lower (s : String) : String := String.mk (s.data.map Char.toLower)

/-- `apply_policy_preset` from `src/main.py`: lower-case the preset name,
then perform the preset's dictionary writes in source order; an unknown
preset yields 400 and changes nothing. -/
def apply_policy_preset (ps : PolicyStore) (preset0 : String) :
    Except PolicyError Unit × PolicyStore :=
  let preset := str_lower preset0
  if preset = "strict" then
    (Except.ok (),
      updateRule
        (updateRule
          (updateRule ps "CUSTOMER_RISK" (fun e => { e with weight := 1.5, enabled := true }))
          "VAGUE_COMPLAINT" (fun e => { e with weight := 1.3, enabled := true }))
        "PHOTO_EVIDENCE" (fun e => { e with weight := 1.2 }))
  else if preset = "friendly" then
    (Except.ok (),
      updateRule
        (updateRule
          (updateRule ps "CUSTOMER_RISK" (fun e => { e with weight := 0.5, enabled := true }))
          "PHOTO_EVIDENCE" (fun e => { e with weight := 1.5, enabled := true }))
        "VAGUE_COMPLAINT" (fun e => { e with weight := 0.5 }))
  else if preset = "delay-tolerant" then
    (Except.ok (),
      updateRule
        (updateRule ps "HIGH_DELAY" (fun e => { e with weight := 0.5, enabled := true }))
        "COMPLAINT_SEVERITY" (fun e => { e with weight := 1.2 }))
  else
    (Except.error PolicyError.InvalidArgument, ps)

/-- Modelled from the spec: the fixed mapping table from a Decision
Reason's `factor` string to its policy rule code (spec §4.3 requires the
aggregator to "associate every fired evaluator's contribution with exactly
one policy key (a fixed mapping table)"; no such table exists anywhere in
the source).  Each unconditional rule maps to its §4.3 identifier, the
vague-complaint text signal to `VAGUE_COMPLAINT`, and the remaining text
signals to `TEXT_SIGNALS`. -/
def factor_rule_code (factor : String) : Option String :=
  if factor = "Complaint Severity" then some "COMPLAINT_SEVERITY"
  else if factor = "Delivery Delay" then some "HIGH_DELAY"
  else if factor = "Restaurant Reliability" then some "RESTAURANT_ERROR"
  else if factor = "Customer History" then some "CUSTOMER_RISK"
  else if factor = "Evidence Quality" then some "PHOTO_EVIDENCE"
  else if factor = "Order Value" then some "ORDER_VALUE"
  else if factor = "TEXT_SIGNAL_VagueComplaint" then some "VAGUE_COMPLAINT"
  else if factor = "TEXT_SIGNAL_Temperature" ∨ factor = "TEXT_SIGNAL_ItemIssue" ∨
      factor = "TEXT_SIGNAL_DeliverySpill" ∨ factor = "TEXT_SIGNAL_FoodQuality" ∨
      factor = "TEXT_SIGNAL_Packaging" ∨ factor = "TEXT_SIGNAL_Aggression" ∨
      factor = "TEXT_SIGNAL_EvidenceStrength" then some "TEXT_SIGNALS"
  else none

/-- Modelled from the spec: the score reconstruction of the invariant
"reconstructing the score by summing `reason.impact × policy_weight(reason.factor)`
over enabled rules equals `suggestion.score`" (spec §3 and §8); the
weighting step itself is absent from the source, so it is built here from
the spec's words. -/
def spec_reconstructed_score (ps : PolicyStore) (reasons : List DecisionReason) : ℚ :=
  (reasons.map (fun r =>
    match factor_rule_code r.factor with
    | some code =>
      match lookupRule ps code with
      | some e => if e.enabled then r.impact * e.weight else 0
      | none => 0
    | none => 0)).sum

/-! Concrete inputs shared by several results. -/

/-- The spec §8 example case: order value 120, delay 70 min, restaurant
error rate 0.35, customer refund rate 0.05, NEVER_ARRIVED, photo provided. -/
def case95 : CaseData :=
  { order_value := 120
    delivery_delay_min := 70
    restaurant_error_rate := 0.35
    customer_refund_rate := 0.05
    complaint_type := ComplaintType.NEVER_ARRIVED
    photo_provided := true }

/-- A minimal case: small order, 5-minute delay, clean histories, no photo. -/
def caseLow : CaseData :=
  { order_value := 10
    delivery_delay_min := 5
    restaurant_error_rate := 0.01
    customer_refund_rate := 0.01
    complaint_type := ComplaintType.LATE_DELIVERY
    photo_provided := false }

/-- A signal bundle whose only flag is `temperature_problem`, extracted with
confidence 0.9. -/
def bundleTemp : TextFeatures :=
  { get_fallback_features with temperature_problem := true, confidence := 0.9 }

/-! Helper lemmas. -/

theorem refund_action_cases (a : RefundAction) :
    a = RefundAction.REFUND ∨ a = RefundAction.PARTIAL ∨ a = RefundAction.REJECT ∨
      a = RefundAction.MANUAL_REVIEW := by
  cases a <;> simp

theorem score_to_action_confidence_bounds (s : ℚ) (case : CaseData) :
    0 ≤ (score_to_action s case).2 ∧ (score_to_action s case).2 ≤ 1 := by
  have hn0 : (0 : ℚ) ≤ max 0 (min 100 ((s + 25) / 1.4)) := le_max_left _ _
  have hn1 : max 0 (min 100 ((s + 25) / 1.4)) ≤ 100 :=
    max_le (by norm_num) (min_le_left _ _)
  unfold score_to_action
  dsimp only
  split_ifs <;> refine ⟨?_, ?_⟩
  · exact le_min (by norm_num) (div_nonneg hn0 (by norm_num))
  · exact le_trans (min_le_left _ _) (by norm_num)
  · norm_num
  · norm_num
  · exact le_min (by norm_num) (div_nonneg hn0 (by norm_num))
  · exact le_trans (min_le_left _ _) (by norm_num)
  · norm_num
  · norm_num
  · exact le_min (by norm_num) (div_nonneg (by linarith) (by norm_num))
  · exact le_trans (min_le_left _ _) (by norm_num)

/-! Claim theorems. -/

/-- C5: on the spec §8 example case (order_value 120, delay 70,
restaurant_error_rate 0.35, customer_refund_rate 0.05, NEVER_ARRIVED,
photo provided, no text signals) `evaluate_case` produces the contributions
35, 20, 15, +5, +10, +10, score 95, action REFUND, and confidence
`min(0.95, clamp((95+25)/1.4, 0, 100)/100) = 6/7 ≈ 0.857`. -/
theorem c5_example_case_scores_95_refund :
    (evaluate_case case95 none).score = 95 ∧
    (evaluate_case case95 none).action = RefundAction.REFUND ∧
    (evaluate_case case95 none).confidence =
      min 0.95 (max 0 (min 100 ((95 + 25) / 1.4)) / 100) ∧
    (evaluate_case case95 none).confidence = 6 / 7 ∧
    ((evaluate_case case95 none).reasons.map DecisionReason.impact) =
      [35, 20, 15, 5, 10, 10] := by
  have h : evaluate_case case95 none =
      ⟨RefundAction.REFUND, 6 / 7, 95, (evaluate_case case95 none).reasons⟩ := by
    norm_num [evaluate_case, case95, evaluate_complaint_severity, evaluate_delivery_delay,
      evaluate_restaurant_error_rate, evaluate_customer_history, evaluate_evidence,
      evaluate_order_value, score_to_action, py_round2, round_half_even,
      REFUND_THRESHOLD, MANUAL_REVIEW_THRESHOLD_HIGH, PARTIAL_THRESHOLD,
      MANUAL_REVIEW_THRESHOLD_LOW]
  refine ⟨?_, ?_, ?_, ?_, ?_⟩
  · rw [h]
  · rw [h]
  · rw [h]
    norm_num [min_def, max_def]
  · rw [h]
  · norm_num [evaluate_case, case95, evaluate_complaint_severity, evaluate_delivery_delay,
      evaluate_restaurant_error_rate, evaluate_customer_history, evaluate_evidence,
      evaluate_order_value]

/-- C6: for every case, evaluating with the neutral fallback bundle returned
on provider failure or when unconfigured (all flags false, all floats 0,
confidence 0) yields exactly the same Suggestion — action, confidence,
score and reason list — as evaluating with no signal bundle at all. -/
theorem c6_fallback_bundle_same_as_no_bundle (case : CaseData) :
    evaluate_case case (some get_fallback_features) = evaluate_case case none := by
  simp [evaluate_case, get_fallback_features]

/-- C4: for every case and optional signal bundle, `evaluate_case` is a
total function whose Suggestion has confidence in [0, 1] and whose action
is one of REFUND, PARTIAL, REJECT, MANUAL_REVIEW; every confidence formula
of the classifier stays within [0, 1]. -/
theorem c4_confidence_in_unit_interval_action_enumerated
    (case : CaseData) (tf : Option TextFeatures) :
    (0 ≤ (evaluate_case case tf).confidence ∧ (evaluate_case case tf).confidence ≤ 1) ∧
    ((evaluate_case case tf).action = RefundAction.REFUND ∨
      (evaluate_case case tf).action = RefundAction.PARTIAL ∨
      (evaluate_case case tf).action = RefundAction.REJECT ∨
      (evaluate_case case tf).action = RefundAction.MANUAL_REVIEW) := by
  exact ⟨score_to_action_confidence_bounds _ case, refund_action_cases _⟩

/-- C10: for every case and signal bundle, the Suggestion's reason list
begins with exactly the six unconditional reasons, in the fixed order
Complaint Severity, Delivery Delay, Restaurant Reliability, Customer
History, Evidence Quality, Order Value; a reason is emitted even when its
tier contributes 0 (shown for the Delivery Delay rule below 15 minutes:
the second reason is present with impact 0). -/
theorem c10_reasons_start_with_six_unconditional_rules
    (case : CaseData) (tf : Option TextFeatures) :
    ((evaluate_case case tf).reasons.take 6).map DecisionReason.factor =
      ["Complaint Severity", "Delivery Delay", "Restaurant Reliability",
       "Customer History", "Evidence Quality", "Order Value"] ∧
    6 ≤ (evaluate_case case tf).reasons.length ∧
    (case.delivery_delay_min < 15 →
      ((evaluate_case case tf).reasons.get? 1).map DecisionReason.impact = some 0) := by
  have hfac :
      [(evaluate_complaint_severity case).2, (evaluate_delivery_delay case).2,
       (evaluate_restaurant_error_rate case).2, (evaluate_customer_history case).2,
       (evaluate_evidence case).2, (evaluate_order_value case).2].map DecisionReason.factor =
      ["Complaint Severity", "Delivery Delay", "Restaurant Reliability",
       "Customer History", "Evidence Quality", "Order Value"] := rfl
  have hdelay : case.delivery_delay_min < 15 →
      (evaluate_delivery_delay case).2.impact = 0 := by
    intro h
    unfold evaluate_delivery_delay
    dsimp only
    rw [if_neg (by omega), if_neg (by omega), if_neg (by omega)]
  cases tf with
  | none =>
    refine ⟨hfac, by simp [evaluate_case], ?_⟩
    intro h
    simpa [evaluate_case, List.get?] using hdelay h
  | some f =>
    by_cases hc : f.confidence > 0
    · refine ⟨?_, ?_, ?_⟩
      · simpa [evaluate_case, hc, List.take_append] using hfac
      · simp [evaluate_case, hc]
      · intro h
        simpa [evaluate_case, hc, List.get?] using hdelay h
    · refine ⟨?_, ?_, ?_⟩
      · simpa [evaluate_case, hc] using hfac
      · simp [evaluate_case, hc]
      · intro h
        simpa [evaluate_case, hc, List.get?] using hdelay h

/-- C10 witness: on the minimal case (delay 5 < 15) the second reason is
present with impact 0. -/
theorem c10_witness :
    caseLow.delivery_delay_min < 15 ∧
    ((evaluate_case caseLow none).reasons.get? 1).map DecisionReason.impact = some 0 := by
  exact ⟨by decide,
    (c10_reasons_start_with_six_unconditional_rules caseLow none).2.2 (by decide)⟩

/-- C3: the classifier checks REFUND (S ≥ 70, confidence min(0.95, N/100)),
then MANUAL_REVIEW-high (S ≥ 65, confidence 0.6), then PARTIAL (S ≥ 40,
confidence min(0.85, N/100)), then MANUAL_REVIEW-low (S ≥ 45), then REJECT
(confidence min(0.90, (100−N)/100)), with N = clamp((S+25)/1.4, 0, 100);
the MANUAL_REVIEW-low branch is unreachable (MANUAL_REVIEW occurs only for
65 ≤ S < 70) and every S < 40 yields REJECT. -/
theorem c3_classifier_branch_order_low_band_dead (S : ℚ) (case : CaseData) :
    (70 ≤ S → score_to_action S case =
      (RefundAction.REFUND, min 0.95 (max 0 (min 100 ((S + 25) / 1.4)) / 100))) ∧
    (65 ≤ S → S < 70 → score_to_action S case = (RefundAction.MANUAL_REVIEW, 0.6)) ∧
    (40 ≤ S → S < 65 → score_to_action S case =
      (RefundAction.PARTIAL, min 0.85 (max 0 (min 100 ((S + 25) / 1.4)) / 100))) ∧
    (S < 40 → score_to_action S case =
      (RefundAction.REJECT, min 0.90 ((100 - max 0 (min 100 ((S + 25) / 1.4))) / 100))) ∧
    ((score_to_action S case).1 = RefundAction.MANUAL_REVIEW → 65 ≤ S ∧ S < 70) := by
  unfold score_to_action REFUND_THRESHOLD MANUAL_REVIEW_THRESHOLD_HIGH PARTIAL_THRESHOLD
    MANUAL_REVIEW_THRESHOLD_LOW
  dsimp only
  refine ⟨?_, ?_, ?_, ?_, ?_⟩ <;> split_ifs with h1 h2 h3 h4 <;>
    first
      | (intro h; rfl)
      | (intro h; exfalso; linarith)
      | (intro h h'; rfl)
      | (intro h h'; exfalso; linarith)
      | (intro hact; exact ⟨by linarith, by linarith⟩)
      | (intro hact; exact absurd hact (by decide))

/-- C3 witness: a score of 30 falls below every band and is rejected, and a
score of 67 lands in the high manual-review band. -/
theorem c3_witness :
    (30 : ℚ) < 40 ∧ (score_to_action 30 caseLow).1 = RefundAction.REJECT ∧
    (65 : ℚ) ≤ 67 ∧ (67 : ℚ) < 70 ∧
    score_to_action 67 caseLow = (RefundAction.MANUAL_REVIEW, 0.6) := by
  refine ⟨by norm_num, ?_, by norm_num, by norm_num, ?_⟩
  · rw [(c3_classifier_branch_order_low_band_dead 30 caseLow).2.2.2.1 (by norm_num)]
  · exact (c3_classifier_branch_order_low_band_dead 67 caseLow).2.1 (by norm_num) (by norm_num)

theorem lookupRule_cons (k : String) (e : RuleEntry) (l : PolicyStore) (c : String) :
    lookupRule ((k, e) :: l) c = if k = c then some e else lookupRule l c := rfl

theorem updateRule_cons (k : String) (e : RuleEntry) (l : PolicyStore) (c : String)
    (f : RuleEntry → RuleEntry) :
    updateRule ((k, e) :: l) c f =
      (if k = c then (k, f e) else (k, e)) :: updateRule l c f := rfl

theorem lookupRule_updateRule_self (ps : PolicyStore) (c : String) (f : RuleEntry → RuleEntry) :
    lookupRule (updateRule ps c f) c = (lookupRule ps c).map f := by
  induction ps with
  | nil => rfl
  | cons kv rest ih =>
    obtain ⟨k, e⟩ := kv
    rw [updateRule_cons]
    by_cases hk : k = c
    · rw [if_pos hk, lookupRule_cons, lookupRule_cons, if_pos hk, if_pos hk]
      rfl
    · rw [if_neg hk, lookupRule_cons, lookupRule_cons, if_neg hk, if_neg hk]
      exact ih

theorem lookupRule_updateRule_ne (ps : PolicyStore) (c c' : String)
    (f : RuleEntry → RuleEntry) (h : c' ≠ c) :
    lookupRule (updateRule ps c f) c' = lookupRule ps c' := by
  induction ps with
  | nil => rfl
  | cons kv rest ih =>
    obtain ⟨k, e⟩ := kv
    rw [updateRule_cons]
    by_cases hk : k = c
    · have hkc' : k ≠ c' := fun hx => h (hx.symm.trans hk)
      rw [if_pos hk, lookupRule_cons, lookupRule_cons, if_neg hkc', if_neg hkc']
      exact ih
    · rw [if_neg hk, lookupRule_cons, lookupRule_cons]
      by_cases hk' : k = c'
      · rw [if_pos hk', if_pos hk']
      · rw [if_neg hk', if_neg hk']
        exact ih

/-- C8: SetWeight fails with NotFound when the rule code is unknown, fails
with InvalidArgument when the code is known but the weight is outside
[0, 2], and otherwise succeeds, replacing exactly that rule's weight; on
either failure the returned policy store is the unchanged input store. -/
theorem c8_set_weight_validation_and_update (ps : PolicyStore) (code : String) (w : ℚ) :
    (lookupRule ps code = none →
      update_policy_weight ps code w = (Except.error PolicyError.NotFound, ps)) ∧
    ((lookupRule ps code).isSome = true → w < 0 ∨ 2 < w →
      update_policy_weight ps code w = (Except.error PolicyError.InvalidArgument, ps)) ∧
    ((lookupRule ps code).isSome = true → 0 ≤ w → w ≤ 2 →
      (update_policy_weight ps code w).1 = Except.ok () ∧
      lookupRule (update_policy_weight ps code w).2 code =
        (lookupRule ps code).map (fun e => { e with weight := w }) ∧
      ∀ c, c ≠ code →
        lookupRule (update_policy_weight ps code w).2 c = lookupRule ps c) := by
  refine ⟨?_, ?_, ?_⟩
  · intro h
    simp [update_policy_weight, h]
  · intro hsome hw
    obtain ⟨e, he⟩ := Option.isSome_iff_exists.mp hsome
    have hcond : w < 0 ∨ w > 2 := by rcases hw with h | h; exact Or.inl h; exact Or.inr h
    simp [update_policy_weight, he, hcond]
  · intro hsome hw0 hw2
    obtain ⟨e, he⟩ := Option.isSome_iff_exists.mp hsome
    have hcond : ¬(w < 0 ∨ w > 2) := by push_neg; exact ⟨hw0, hw2⟩
    refine ⟨?_, ?_, ?_⟩
    · simp [update_policy_weight, he, hcond]
    · simp [update_policy_weight, he, hcond, lookupRule_updateRule_self]
    · intro c hc
      simp [update_policy_weight, he, hcond, lookupRule_updateRule_ne _ _ _ _ hc]

/-- C8 witness: on the initial store, an unknown rule code gives NotFound
with the store unchanged, weight 3 on a known rule gives InvalidArgument
with the store unchanged, and weight 1/2 on CUSTOMER_RISK succeeds and
replaces exactly that weight. -/
theorem c8_witness :
    update_policy_weight initial_policy_rules "NO_SUCH_RULE" 1 =
      (Except.error PolicyError.NotFound, initial_policy_rules) ∧
    update_policy_weight initial_policy_rules "CUSTOMER_RISK" 3 =
      (Except.error PolicyError.InvalidArgument, initial_policy_rules) ∧
    (update_policy_weight initial_policy_rules "CUSTOMER_RISK" (1/2)).1 = Except.ok () ∧
    lookupRule (update_policy_weight initial_policy_rules "CUSTOMER_RISK" (1/2)).2
        "CUSTOMER_RISK" =
      some { enabled := true, weight := 1/2, description := "Customer refund history risk" } ∧
    lookupRule (update_policy_weight initial_policy_rules "CUSTOMER_RISK" (1/2)).2
        "ORDER_VALUE" = lookupRule initial_policy_rules "ORDER_VALUE" := by
  have h1 := (c8_set_weight_validation_and_update initial_policy_rules "NO_SUCH_RULE" 1).1
    (by decide)
  have h2 := (c8_set_weight_validation_and_update initial_policy_rules "CUSTOMER_RISK" 3).2.1
    (by decide) (by norm_num)
  have h3 := (c8_set_weight_validation_and_update initial_policy_rules "CUSTOMER_RISK" (1/2)).2.2
    (by decide) (by norm_num) (by norm_num)
  refine ⟨h1, h2, h3.1, ?_, h3.2.2 "ORDER_VALUE" (by decide)⟩
  rw [h3.2.1]
  rfl

theorem str_lower_strict : str_lower "strict" = "strict" := by decide

theorem str_lower_friendly : str_lower "friendly" = "friendly" := by decide

theorem str_lower_delay : str_lower "delay-tolerant" = "delay-tolerant" := by decide

/-- C9: each of the presets strict, friendly and delay-tolerant succeeds,
is idempotent (applying it twice leaves the store exactly as applying it
once), and leaves the enabled flag and weight of every rule it does not
name unchanged; an unknown preset name fails with InvalidArgument and
returns the store untouched. -/
theorem c9_presets_idempotent_and_local (ps : PolicyStore) :
    ((apply_policy_preset ps "strict").1 = Except.ok () ∧
      (apply_policy_preset (apply_policy_preset ps "strict").2 "strict").2 =
        (apply_policy_preset ps "strict").2 ∧
      (∀ c, c ≠ "CUSTOMER_RISK" → c ≠ "VAGUE_COMPLAINT" → c ≠ "PHOTO_EVIDENCE" →
        lookupRule (apply_policy_preset ps "strict").2 c = lookupRule ps c)) ∧
    ((apply_policy_preset ps "friendly").1 = Except.ok () ∧
      (apply_policy_preset (apply_policy_preset ps "friendly").2 "friendly").2 =
        (apply_policy_preset ps "friendly").2 ∧
      (∀ c, c ≠ "CUSTOMER_RISK" → c ≠ "PHOTO_EVIDENCE" → c ≠ "VAGUE_COMPLAINT" →
        lookupRule (apply_policy_preset ps "friendly").2 c = lookupRule ps c)) ∧
    ((apply_policy_preset ps "delay-tolerant").1 = Except.ok () ∧
      (apply_policy_preset (apply_policy_preset ps "delay-tolerant").2 "delay-tolerant").2 =
        (apply_policy_preset ps "delay-tolerant").2 ∧
      (∀ c, c ≠ "HIGH_DELAY" → c ≠ "COMPLAINT_SEVERITY" →
        lookupRule (apply_policy_preset ps "delay-tolerant").2 c = lookupRule ps c)) ∧
    (∀ name, str_lower name ≠ "strict" → str_lower name ≠ "friendly" →
      str_lower name ≠ "delay-tolerant" →
      apply_policy_preset ps name = (Except.error PolicyError.InvalidArgument, ps)) := by
  refine ⟨⟨?_, ?_, ?_⟩, ⟨?_, ?_, ?_⟩, ⟨?_, ?_, ?_⟩, ?_⟩
  · simp [apply_policy_preset, str_lower_strict]
  · simp only [apply_policy_preset, str_lower_strict]
    simp only [String.reduceEq, reduceIte]
    simp only [updateRule, List.map_map]
    apply congrArg (fun g => List.map g ps)
    funext kv
    obtain ⟨k, e⟩ := kv
    by_cases h1 : k = "CUSTOMER_RISK" <;> by_cases h2 : k = "VAGUE_COMPLAINT" <;>
      by_cases h3 : k = "PHOTO_EVIDENCE" <;> simp_all
  · intro c h1 h2 h3
    simp only [apply_policy_preset, str_lower_strict]
    simp only [String.reduceEq, reduceIte]
    rw [lookupRule_updateRule_ne _ _ _ _ h3, lookupRule_updateRule_ne _ _ _ _ h2,
      lookupRule_updateRule_ne _ _ _ _ h1]
  · simp [apply_policy_preset, str_lower_friendly]
  · simp only [apply_policy_preset, str_lower_friendly]
    simp only [String.reduceEq, reduceIte]
    simp only [updateRule, List.map_map]
    apply congrArg (fun g => List.map g ps)
    funext kv
    obtain ⟨k, e⟩ := kv
    by_cases h1 : k = "CUSTOMER_RISK" <;> by_cases h2 : k = "PHOTO_EVIDENCE" <;>
      by_cases h3 : k = "VAGUE_COMPLAINT" <;> simp_all
  · intro c h1 h2 h3
    simp only [apply_policy_preset, str_lower_friendly]
    simp only [String.reduceEq, reduceIte]
    rw [lookupRule_updateRule_ne _ _ _ _ h3, lookupRule_updateRule_ne _ _ _ _ h2,
      lookupRule_updateRule_ne _ _ _ _ h1]
  · simp [apply_policy_preset, str_lower_delay]
  · simp only [apply_policy_preset, str_lower_delay]
    simp only [String.reduceEq, reduceIte]
    simp only [updateRule, List.map_map]
    apply congrArg (fun g => List.map g ps)
    funext kv
    obtain ⟨k, e⟩ := kv
    by_cases h1 : k = "HIGH_DELAY" <;> by_cases h2 : k = "COMPLAINT_SEVERITY" <;> simp_all
  · intro c h1 h2
    simp only [apply_policy_preset, str_lower_delay]
    simp only [String.reduceEq, reduceIte]
    rw [lookupRule_updateRule_ne _ _ _ _ h2, lookupRule_updateRule_ne _ _ _ _ h1]
  · intro name h1 h2 h3
    simp [apply_policy_preset, h1, h2, h3]

/-- C9 witness: on the initial store, applying strict twice equals applying
it once, the ORDER_VALUE rule is untouched by strict, and the unknown
preset name "bogus" fails with InvalidArgument leaving the store as is. -/
theorem c9_witness :
    (apply_policy_preset (apply_policy_preset initial_policy_rules "strict").2 "strict").2 =
      (apply_policy_preset initial_policy_rules "strict").2 ∧
    lookupRule (apply_policy_preset initial_policy_rules "strict").2 "ORDER_VALUE" =
      lookupRule initial_policy_rules "ORDER_VALUE" ∧
    apply_policy_preset initial_policy_rules "bogus" =
      (Except.error PolicyError.InvalidArgument, initial_policy_rules) := by
  have h := c9_presets_idempotent_and_local initial_policy_rules
  exact ⟨h.1.2.1,
    h.1.2.2 "ORDER_VALUE" (by decide) (by decide) (by decide),
    h.2.2.2 "bogus" (by decide) (by decide) (by decide)⟩

theorem spec_reconstructed_score_via_pairs (ps : PolicyStore) (rs : List DecisionReason) :
    spec_reconstructed_score ps rs =
      ((rs.map (fun r => (r.factor, r.impact))).map (fun p =>
        match factor_rule_code p.1 with
        | some code =>
          match lookupRule ps code with
          | some e => if e.enabled then p.2 * e.weight else 0
          | none => 0
        | none => 0)).sum := by
  unfold spec_reconstructed_score
  rw [List.map_map]
  rfl

theorem case95_factor_impacts :
    (evaluate_case case95 none).reasons.map (fun r => (r.factor, r.impact)) =
      [("Complaint Severity", 35), ("Delivery Delay", 20), ("Restaurant Reliability", 15),
       ("Customer History", 5), ("Evidence Quality", 10), ("Order Value", 10)] := by
  norm_num [evaluate_case, case95, evaluate_complaint_severity, evaluate_delivery_delay,
    evaluate_restaurant_error_rate, evaluate_customer_history, evaluate_evidence,
    evaluate_order_value]

theorem eval_case95_score_95 : (evaluate_case case95 none).score = 95 := by
  norm_num [evaluate_case, case95, evaluate_complaint_severity, evaluate_delivery_delay,
    evaluate_restaurant_error_rate, evaluate_customer_history, evaluate_evidence,
    evaluate_order_value, py_round2, round_half_even]

/-- C1: the claimed score-decomposition invariant fails on the code.
`evaluate_case` (src/app/engine.py) reads no policy state at all, so the
returned score is the plain unweighted sum of every reason's impact.  At
the reachable policy store with COMPLAINT_SEVERITY toggled off, the
example case still gets score 95, while the claimed reconstruction (sum of
impact × weight over enabled mapped rules) gives 60. -/
theorem c1_score_decomposition_fails_when_rule_disabled :
    ((toggle_policy_rule initial_policy_rules "COMPLAINT_SEVERITY").1 = Except.ok ()) ∧
    ((lookupRule (toggle_policy_rule initial_policy_rules "COMPLAINT_SEVERITY").2
        "COMPLAINT_SEVERITY").map RuleEntry.enabled = some false) ∧
    (evaluate_case case95 none).score = 95 ∧
    spec_reconstructed_score (toggle_policy_rule initial_policy_rules "COMPLAINT_SEVERITY").2
      (evaluate_case case95 none).reasons = 60 ∧
    (evaluate_case case95 none).score ≠
      spec_reconstructed_score (toggle_policy_rule initial_policy_rules "COMPLAINT_SEVERITY").2
        (evaluate_case case95 none).reasons := by
  have hscore := eval_case95_score_95
  have hrec : spec_reconstructed_score
      (toggle_policy_rule initial_policy_rules "COMPLAINT_SEVERITY").2
      (evaluate_case case95 none).reasons = 60 := by
    rw [spec_reconstructed_score_via_pairs, case95_factor_impacts]
    simp only [factor_rule_code, toggle_policy_rule, updateRule, lookupRule,
      initial_policy_rules, List.map_cons, List.map_nil, String.reduceEq, reduceIte]
    norm_num
  refine ⟨rfl, rfl, hscore, hrec, ?_⟩
  rw [hscore, hrec]
  norm_num

/-- C2: toggling a rule off has no effect on the next evaluation, because
`evaluate_case` takes no policy input.  After Toggle("HIGH_DELAY")
disables the rule, the example case still scores 95 — the disabled rule's
contribution of 20 is still included — whereas the claim requires the
score without that contribution (75, the reconstruction over the still
enabled rules). -/
theorem c2_toggle_does_not_remove_contribution :
    ((toggle_policy_rule initial_policy_rules "HIGH_DELAY").1 = Except.ok ()) ∧
    ((lookupRule (toggle_policy_rule initial_policy_rules "HIGH_DELAY").2
        "HIGH_DELAY").map RuleEntry.enabled = some false) ∧
    (evaluate_case case95 none).score = 95 ∧
    spec_reconstructed_score (toggle_policy_rule initial_policy_rules "HIGH_DELAY").2
      (evaluate_case case95 none).reasons = 75 ∧
    (evaluate_case case95 none).score ≠
      spec_reconstructed_score (toggle_policy_rule initial_policy_rules "HIGH_DELAY").2
        (evaluate_case case95 none).reasons := by
  have hscore := eval_case95_score_95
  have hrec : spec_reconstructed_score
      (toggle_policy_rule initial_policy_rules "HIGH_DELAY").2
      (evaluate_case case95 none).reasons = 75 := by
    rw [spec_reconstructed_score_via_pairs, case95_factor_impacts]
    simp only [factor_rule_code, toggle_policy_rule, updateRule, lookupRule,
      initial_policy_rules, List.map_cons, List.map_nil, String.reduceEq, reduceIte]
    norm_num
  refine ⟨rfl, rfl, hscore, hrec, ?_⟩
  rw [hscore, hrec]
  norm_num

/-- The base score of the six unconditional rules, exactly the running sum
built by `evaluate_case` before the text-feature gate. -/
def base_score (case : CaseData) : ℚ :=
  0 + (evaluate_complaint_severity case).1 + (evaluate_delivery_delay case).1 +
    (evaluate_restaurant_error_rate case).1 + (evaluate_customer_history case).1 +
    (evaluate_evidence case).1 + (evaluate_order_value case).1

/-- Follows the spec's §4.2 words: the list of (factor, contribution)
pairs of the text-signal group — temperature +8, missing/wrong item +12,
delivery spill +10, food quality +7, packaging +6, vague −8, aggression
above 0.7 −5, evidence strength above 0.6 +8 — for comparison with the
source-derived `evaluate_text_features`. -/
def spec_text_contribs (f : TextFeatures) : List (String × ℚ) :=
  (if f.temperature_problem then [("TEXT_SIGNAL_Temperature", 8)] else []) ++
  (if f.missing_item || f.wrong_item then [("TEXT_SIGNAL_ItemIssue", 12)] else []) ++
  (if f.delivery_spill then [("TEXT_SIGNAL_DeliverySpill", 10)] else []) ++
  (if f.food_quality_issue then [("TEXT_SIGNAL_FoodQuality", 7)] else []) ++
  (if f.packaging_problem then [("TEXT_SIGNAL_Packaging", 6)] else []) ++
  (if f.vague_complaint then [("TEXT_SIGNAL_VagueComplaint", -8)] else []) ++
  (if f.customer_aggression > 0.7 then [("TEXT_SIGNAL_Aggression", -5)] else []) ++
  (if f.evidence_strength > 0.6 then [("TEXT_SIGNAL_EvidenceStrength", 8)] else [])

/-- C7 counterexample: the text-signal group is not gated by the
TEXT_SIGNALS policy entry.  With TEXT_SIGNALS toggled off in the store,
evaluating the example case with a confidence-0.9 bundle whose only flag
is temperature_problem still adds the +8 temperature contribution: the
score is 103 instead of 95 and the TEXT_SIGNAL_Temperature reason is
present. -/
theorem c7_counterexample_policy_gate_ignored :
    ((lookupRule (toggle_policy_rule initial_policy_rules "TEXT_SIGNALS").2
        "TEXT_SIGNALS").map RuleEntry.enabled = some false) ∧
    (evaluate_case case95 (some bundleTemp)).score = 103 ∧
    (evaluate_case case95 none).score = 95 ∧
    ({ factor := "TEXT_SIGNAL_Temperature"
       explanation := "Complaint mentions temperature issues - food quality concern"
       impact := 8 } : DecisionReason) ∈ (evaluate_case case95 (some bundleTemp)).reasons := by
  refine ⟨rfl, ?_, eval_case95_score_95, ?_⟩
  · norm_num [evaluate_case, case95, bundleTemp, get_fallback_features,
      evaluate_complaint_severity, evaluate_delivery_delay, evaluate_restaurant_error_rate,
      evaluate_customer_history, evaluate_evidence, evaluate_order_value,
      evaluate_text_features, py_round2, round_half_even]
  · have h09 : (0 : ℚ) < (0.9 : ℚ) := by norm_num
    simp [evaluate_case, bundleTemp, get_fallback_features, evaluate_text_features, h09]

/-- C7 (amended): for every signal bundle with extraction confidence > 0
the text-signal group — regardless of the TEXT_SIGNALS policy entry, which
the engine never consults — appends its reasons after the six base
reasons, its (factor, impact) pairs are exactly the spec §4.2 table
(temperature +8; missing/wrong item +12 with "missing" taking priority in
the explanation; spill +10; quality +7; packaging +6; vague −8;
aggression > 0.7 −5; evidence strength > 0.6 +8; several may fire at
once), the group's total is the sum of those impacts and is added to the
base score; none of this fires when confidence = 0. -/
theorem c7_text_signal_contributions (case : CaseData) (f : TextFeatures) :
    (0 < f.confidence →
      (evaluate_case case (some f)).reasons =
        (evaluate_case case none).reasons ++ (evaluate_text_features f).2 ∧
      (evaluate_case case (some f)).score =
        py_round2 (base_score case + (evaluate_text_features f).1) ∧
      (evaluate_text_features f).2.map (fun r => (r.factor, r.impact)) =
        spec_text_contribs f ∧
      (evaluate_text_features f).1 =
        ((evaluate_text_features f).2.map DecisionReason.impact).sum ∧
      (f.missing_item = true →
        ({ factor := "TEXT_SIGNAL_ItemIssue"
           explanation := "Complaint clearly describes missing item - strong validity"
           impact := 12 } : DecisionReason) ∈ (evaluate_case case (some f)).reasons) ∧
      (f.missing_item = false → f.wrong_item = true →
        ({ factor := "TEXT_SIGNAL_ItemIssue"
           explanation := "Complaint clearly describes wrong item - strong validity"
           impact := 12 } : DecisionReason) ∈ (evaluate_case case (some f)).reasons)) ∧
    (f.confidence = 0 → evaluate_case case (some f) = evaluate_case case none) := by
  constructor
  · intro hconf
    refine ⟨?_, ?_, ?_, ?_, ?_, ?_⟩
    · simp [evaluate_case, hconf]
    · simp [evaluate_case, hconf, base_score]
    · simp only [evaluate_text_features, spec_text_contribs, List.map_append,
        apply_ite (Prod.snd (α := ℚ) (β := List DecisionReason)),
        apply_ite (List.map (fun r : DecisionReason => (r.factor, r.impact))),
        List.map_cons, List.map_nil]
    · simp only [evaluate_text_features, List.map_append, List.map_cons, List.map_nil,
        List.sum_append, List.sum_cons, List.sum_nil,
        apply_ite (List.map DecisionReason.impact), apply_ite List.sum,
        apply_ite (Prod.fst (β := List DecisionReason)),
        apply_ite (Prod.snd (α := ℚ))]
      norm_num
    · intro hmiss
      simp [evaluate_case, hconf, evaluate_text_features, hmiss]
    · intro hmiss hwrong
      simp [evaluate_case, hconf, evaluate_text_features, hmiss, hwrong]
  · intro h0
    simp [evaluate_case, h0]

/-- C7 witness: the temperature-only bundle with confidence 0.9 fires on
the example case: the reason list is the six base reasons followed by the
text-signal reasons. -/
theorem c7_witness :
    (0 : ℚ) < bundleTemp.confidence ∧
    (evaluate_case case95 (some bundleTemp)).reasons =
      (evaluate_case case95 none).reasons ++ (evaluate_text_features bundleTemp).2 := by
  have hc : (0 : ℚ) < bundleTemp.confidence := by
    norm_num [bundleTemp, get_fallback_features]
  exact ⟨hc, ((c7_text_signal_contributions case95 bundleTemp).1 hc).1⟩

end RefundAssistant
